import Mathlib

/-!
Verification of the `Wiki` access layer of spi-tools (`spi/wiki_interface.py`).

The `Wiki` class is a thin adapter over an mwclient `Site` handle.  We embed it
shallowly: the remote wiki and the third-party libraries become explicit data
(`SiteData`, `Libs`), every method of `Wiki` becomes a Lean function that takes
the `Wiki` value and returns its result together with the (unchanged) `Wiki`,
mirroring the explicit `self` of the Python methods.  Helper modules of the
repository that are imported by `wiki_interface.py` but whose sources are not
part of this development (`spi_utils`, `block_utils`, `time_utils`) are
modelled from the spec, as are the value shapes produced by the external
libraries (mwclient records, mwparserfromhell templates, Python datetimes).
-/

set_option autoImplicit false

namespace SpiTools

/-- Modelled from the spec: a `time.struct_time` timestamp as delivered by
mwclient for contributions and log events ("timestamp structs"). -/
structure StructTime where
  tm_year : Nat
  tm_mon : Nat
  tm_mday : Nat
  tm_hour : Nat
  tm_min : Nat
  tm_sec : Nat
  deriving DecidableEq, Repr

/-- Modelled from the spec: a Python `datetime.datetime` value.  The access
layer only ever produces datetimes by converting a `struct_time` or by parsing
an ISO 8601 string, and never inspects them afterwards, so a datetime is
represented by its source. -/
inductive DateTime where
  | ofStruct (t : StructTime)
  | ofIso (s : String)
  deriving DecidableEq, Repr

/-- Modelled from the spec: `time_utils.struct_to_datetime`, which converts a
`struct_time` into a `datetime` (the module is imported by the access layer
but its source is not part of this development). -/
def struct_to_datetime (t : StructTime) : DateTime :=
  DateTime.ofStruct t

/-- Modelled from the spec: `dateutil.parser.isoparse`, parsing an ISO 8601
string into a datetime. -/
def isoparse (s : String) : DateTime :=
  DateTime.ofIso s

/-- Modelled from the spec: `datetime.datetime.fromisoformat`, parsing an
ISO 8601 string into a datetime. -/
def fromisoformat (s : String) : DateTime :=
  DateTime.ofIso s

/-- The `WikiContrib` value object of `wiki_interface.py`: a dataclass with a
timestamp, a page title, an edit comment, and an `is_live` flag defaulting to
`True`. -/
structure WikiContrib where
  timestamp : DateTime
  title : String
  comment : String
  is_live : Bool := true
  deriving DecidableEq, Repr

/-- Modelled from the spec: `block_utils.BlockEvent`, built by the access
layer as `BlockEvent(user_name, timestamp, expiry)` or, for re-blocks,
`BlockEvent(user_name, timestamp, expiry, reblock=True)`. -/
structure BlockEvent where
  user_name : String
  timestamp : DateTime
  expiry : Option DateTime := none
  reblock : Bool := false
  deriving DecidableEq, Repr

/-- Modelled from the spec: `block_utils.UnblockEvent`, built by the access
layer as `UnblockEvent(user_name, timestamp)`. -/
structure UnblockEvent where
  user_name : String
  timestamp : DateTime
  deriving DecidableEq, Repr

/-- An element of the heterogeneous list returned by `get_user_blocks`:
either a `BlockEvent` or an `UnblockEvent`. -/
inductive BlockLogItem where
  | blockEv (e : BlockEvent)
  | unblockEv (e : UnblockEvent)
  deriving DecidableEq, Repr

/-- Modelled from the spec: `spi_utils.SpiSourceDocument`, a wiki-markup
source document tagged with its page title; the access layer constructs it as
`SpiSourceDocument(page_title, page_text)`. -/
structure SpiSourceDocument where
  title : String
  text : String
  deriving DecidableEq, Repr

/-- Modelled from the spec: `spi_utils.SpiCase`, built from one or more
source documents (`SpiCase(*docs)`). -/
structure SpiCase where
  docs : List SpiSourceDocument
  deriving DecidableEq, Repr

/-- Modelled from the spec: a template node as produced by
`mwparserfromhell.parse(...).filter_templates(...)`.  `name` is the template
name; `param1` is the rendering `str(t.get(1))` of the parameter named `1`
(for the overview templates, their first positional parameter). -/
structure Template where
  name : String
  param1 : String
  deriving DecidableEq, Repr

/-- Modelled from the spec: the external library operations the access layer
delegates to and treats as black boxes — mwparserfromhell parsing of wiki
markup into a template stream, its template-name matching, and the IP
extraction `SpiCase.find_all_ips` of `spi_utils` (whose source is not part of
this development). -/
structure Libs where
  parse : String → List Template
  name_matches : String → String → Bool
  find_all_ips : SpiCase → List String

/-- A record yielded by `site.usercontributions(...)`: the fields the access
layer reads. -/
structure UserContribRec where
  timestamp : StructTime
  title : String
  comment : String
  deriving DecidableEq, Repr

/-- A block-log entry yielded by `site.logevents(...)`: the fields the access
layer reads.  `params_expiry` is `entry["params"].get("expiry")`, absent when
the params dict has no expiry key. -/
structure LogEntry where
  action : String
  timestamp : StructTime
  params_expiry : Option String := none
  deriving DecidableEq, Repr

/-- A revision record inside an `alldeletedrevisions` page: the fields the
access layer reads.  The timestamp is the raw ISO string of the API. -/
structure DeletedRevision where
  timestamp : String
  comment : String
  deriving DecidableEq, Repr

/-- A page record of the `alldeletedrevisions` listing. -/
structure DeletedPage where
  title : String
  revisions : List DeletedRevision
  deriving DecidableEq, Repr

/-- A record of the `site.users(...)` listing.  `registration` is the dict
entry for the key `registration`: `none` when the key is absent (subscripting
raises `KeyError`), `some none` when the key is present with a null value,
and `some (some s)` when it holds the string `s`. -/
structure UserInfo where
  registration : Option (Option String) := none
  deriving DecidableEq, Repr

/-- The remote wiki behind the mwclient `Site` handle, as the response
functions the access layer queries: page texts, page existence, and the four
listings it consumes. -/
structure SiteData where
  pages_text : String → String
  pages_exist : String → Bool
  usercontributions : String → List UserContribRec
  logevents : String → List LogEntry
  users : String → List UserInfo
  alldeletedrevisions : String → List DeletedPage

/-- The OAuth keyword arguments passed to the `Site` constructor when the
request carries a logged-in user. -/
structure AuthInfo where
  consumer_token : String
  consumer_secret : String
  access_token : String
  access_secret : String
  deriving DecidableEq, Repr

/-- The `extra_data["access_token"]` dict of the mediawiki social-auth
record. -/
structure AccessToken where
  oauth_token : String
  oauth_token_secret : String
  deriving DecidableEq, Repr

/-- The Django user returned by `django.contrib.auth.get_user(request)`, as
consumed by `get_mw_site`: its `is_anonymous` flag and the access token of
its mediawiki social-auth record. -/
structure AuthUser where
  is_anonymous : Bool
  access_token : AccessToken
  deriving DecidableEq, Repr

/-- A Django request, as consumed by `get_mw_site`: it determines the user
that `django.contrib.auth.get_user` returns. -/
structure Request where
  user : AuthUser
  deriving DecidableEq, Repr

/-- The relevant Django settings (`tools_app/settings.py`). -/
structure Settings where
  SOCIAL_AUTH_MEDIAWIKI_KEY : String
  SOCIAL_AUTH_MEDIAWIKI_SECRET : String
  MEDIAWIKI_SITE_NAME : String
  MEDIAWIKI_USER_AGENT : String
  deriving DecidableEq, Repr

/-- The mwclient `Site` handle: the constructor arguments it was created
with, plus the remote wiki it answers queries from. -/
structure Site where
  host : String
  clients_useragent : String
  auth_info : Option AuthInfo
  data : SiteData

/-- `Wiki.get_mw_site`: builds the mwclient `Site`.  `request and
django.contrib.auth.get_user(request)` yields `None` for a missing request;
for `None` or an anonymous user the auth kwargs are empty, otherwise they
carry the consumer token and secret from the settings and the access token
and secret from the social-auth record. -/
def get_mw_site (s : Settings) (request : Option Request) (data : SiteData) : Site :=
  let user : Option AuthUser := request.map Request.user
  let auth_info : Option AuthInfo :=
    match user with
    | none => none
    | some u =>
      if u.is_anonymous then none
      else some {
        consumer_token := s.SOCIAL_AUTH_MEDIAWIKI_KEY,
        consumer_secret := s.SOCIAL_AUTH_MEDIAWIKI_SECRET,
        access_token := u.access_token.oauth_token,
        access_secret := u.access_token.oauth_token_secret }
  { host := s.MEDIAWIKI_SITE_NAME,
    clients_useragent := s.MEDIAWIKI_USER_AGENT,
    auth_info := auth_info,
    data := data }

/-- The `Wiki` object: its only attribute is the `site` handle. -/
structure Wiki where
  site : Site

/-- `Wiki.__init__`: stores the one `Site` built by `get_mw_site` in
`self.site`. -/
def Wiki.init (s : Settings) (request : Option Request) (data : SiteData) : Wiki :=
  { site := get_mw_site s request data }

/-- `Wiki.get_current_case_names`: parses the overview page and returns
`str(t.get(1))` for each template matching `SPIstatusentry`. -/
def Wiki.get_current_case_names (libs : Libs) (w : Wiki) : List String × Wiki :=
  let overview := w.site.data.pages_text "Wikipedia:Sockpuppet investigations/Cases/Overview"
  let templates := (libs.parse overview).filter (fun t => libs.name_matches t.name "SPIstatusentry")
  (templates.map Template.param1, w)

/-- `Wiki.page_exists`. -/
def Wiki.page_exists (w : Wiki) (title : String) : Bool × Wiki :=
  (w.site.data.pages_exist title, w)

/-- `Wiki.get_case_ips`: builds the case document, appends the archive
document when the archive text is truthy (non-empty), and returns
`SpiCase(*docs).find_all_ips()`. -/
def Wiki.get_case_ips (libs : Libs) (w : Wiki) (case_name : String) : List String × Wiki :=
  let case_title := "Wikipedia:Sockpuppet investigations/" ++ case_name
  let archive_title := case_title ++ "/Archive"
  let case_doc : SpiSourceDocument := { title := case_title, text := w.site.data.pages_text case_title }
  let docs := [case_doc]
  let archive_text := w.site.data.pages_text archive_title
  let docs := if archive_text.isEmpty then docs
    else docs ++ [{ title := archive_title, text := archive_text : SpiSourceDocument }]
  let case : SpiCase := { docs := docs }
  (libs.find_all_ips case, w)

/-- `Wiki.get_registration_time`: takes the first record of the users query
(`.next()` raises `StopIteration` on an empty listing, embedded as the error
case) and returns its `registration` entry, with the `KeyError` for an absent
key caught and turned into `None`. -/
def Wiki.get_registration_time (w : Wiki) (user : String) : Except String (Option String) × Wiki :=
  match w.site.data.users user with
  | [] => (Except.error "StopIteration", w)
  | userinfo :: _ =>
    match userinfo.registration with
    | some value => (Except.ok value, w)
    | none => (Except.ok none, w)

/-- `Wiki.get_case`: builds the case document; when `use_archive` is true it
additionally fetches the archive text (Python short-circuits
`use_archive and ...text()`, so with `use_archive` false the archive page is
never fetched) and appends the archive document when that text is truthy.
Alongside the `SpiCase` we return the list of page titles whose text was
fetched, in fetch order, to capture which pages were consulted. -/
def Wiki.get_case (w : Wiki) (master_name : String) (use_archive : Bool) :
    (SpiCase × List String) × Wiki :=
  let case_title := "Wikipedia:Sockpuppet investigations/" ++ master_name
  let archive_title := case_title ++ "/Archive"
  let case_doc : SpiSourceDocument := { title := case_title, text := w.site.data.pages_text case_title }
  let docs := [case_doc]
  if use_archive then
    let archive_text := w.site.data.pages_text archive_title
    let docs := if archive_text.isEmpty then docs
      else docs ++ [{ title := archive_title, text := archive_text : SpiSourceDocument }]
    (({ docs := docs }, [case_title, archive_title]), w)
  else
    (({ docs := docs }, [case_title]), w)

/-- `Wiki.user_contributions`: one `WikiContrib` per contribution record,
with the struct_time converted to a datetime and title and comment copied
(`is_live` keeps its default `True`). -/
def Wiki.user_contributions (w : Wiki) (user_name : String) : List WikiContrib × Wiki :=
  ((w.site.data.usercontributions user_name).map (fun contrib =>
    { timestamp := struct_to_datetime contrib.timestamp,
      title := contrib.title,
      comment := contrib.comment }), w)

/-- Python `str.endswith`, on the character sequences of the strings. -/
def py_endswith (s tail : String) : Bool :=
  List.isSuffixOf tail.data s.data

/-- The body of the inner loop of `Wiki.deleted_user_contributions` for one
revision: a timestamp ending in `Z` is parsed by
`fromisoformat(rev_ts[:-1] + "+00:00")` and a `WikiContrib` with
`is_live=False` is yielded; any other timestamp raises
`ValueError("Unparsable timestamp: ...")`. -/
def process_deleted_revision (title : String) (revision : DeletedRevision) :
    Except String WikiContrib :=
  let rev_ts := revision.timestamp
  if py_endswith rev_ts "Z" then
    Except.ok
      { timestamp := fromisoformat (rev_ts.dropRight 1 ++ "+00:00"),
        title := title,
        comment := revision.comment,
        is_live := false }
  else
    Except.error ("Unparsable timestamp: " ++ rev_ts)

/-- The inner loop of `Wiki.deleted_user_contributions` over the revisions of
one page: yields in order, stopping at the first `ValueError`. -/
def process_deleted_revisions (title : String) :
    List DeletedRevision → Except String (List WikiContrib)
  | [] => Except.ok []
  | revision :: rest =>
    match process_deleted_revision title revision with
    | Except.error e => Except.error e
    | Except.ok contrib =>
      match process_deleted_revisions title rest with
      | Except.error e => Except.error e
      | Except.ok contribs => Except.ok (contrib :: contribs)

/-- The outer loop of `Wiki.deleted_user_contributions` over the pages of the
`alldeletedrevisions` listing. -/
def process_deleted_pages : List DeletedPage → Except String (List WikiContrib)
  | [] => Except.ok []
  | page :: rest =>
    match process_deleted_revisions page.title page.revisions with
    | Except.error e => Except.error e
    | Except.ok contribs =>
      match process_deleted_pages rest with
      | Except.error e => Except.error e
      | Except.ok more => Except.ok (contribs ++ more)

/-- `Wiki.deleted_user_contributions`: iterates the `alldeletedrevisions`
listing for the user and yields a `WikiContrib` per revision, as an
exception-aware list. -/
def Wiki.deleted_user_contributions (w : Wiki) (user_name : String) :
    Except String (List WikiContrib) × Wiki :=
  (process_deleted_pages (w.site.data.alldeletedrevisions user_name), w)

/-- The body of the loop of `Wiki.get_user_blocks` for one log entry:
appends a `BlockEvent` for action `block`, a re-block `BlockEvent` for
`reblock`, and an `UnblockEvent` for `unblock` to the `events` accumulator.
`expiry = mw_expiry and isoparse(mw_expiry)` leaves a falsy (absent or
empty) expiry unparsed. -/
def get_user_blocks_step (user_name : String) (events : List BlockLogItem)
    (block : LogEntry) : List BlockLogItem :=
  let action := block.action
  let timestamp := struct_to_datetime block.timestamp
  let mw_expiry := block.params_expiry
  let expiry : Option DateTime :=
    match mw_expiry with
    | none => none
    | some s => if s.isEmpty then none else some (isoparse s)
  let events := if action = "block" then
      events ++ [BlockLogItem.blockEv
        { user_name := user_name, timestamp := timestamp, expiry := expiry }]
    else events
  let events := if action = "reblock" then
      events ++ [BlockLogItem.blockEv
        { user_name := user_name, timestamp := timestamp, expiry := expiry, reblock := true }]
    else events
  let events := if action = "unblock" then
      events ++ [BlockLogItem.unblockEv
        { user_name := user_name, timestamp := timestamp }]
    else events
  events

/-- `Wiki.get_user_blocks`: loops over the block log entries for
`User:<user_name>` (oldest first), accumulating events with
`get_user_blocks_step`. -/
def Wiki.get_user_blocks (w : Wiki) (user_name : String) : List BlockLogItem × Wiki :=
  let blocks := w.site.data.logevents ("User:" ++ user_name)
  (blocks.foldl (get_user_blocks_step user_name) [], w)

/-- The per-entry event translation asserted by claim C1, written from the
words of the claim: action `block` gives `BlockEvent(user_name, timestamp,
expiry)`, `reblock` gives the same with `reblock=True`, `unblock` gives
`UnblockEvent(user_name, timestamp)`, and any other action gives no event. -/
def claimed_block_events (user_name : String) (block : LogEntry) : List BlockLogItem :=
  let timestamp := struct_to_datetime block.timestamp
  let expiry : Option DateTime :=
    match block.params_expiry with
    | none => none
    | some s => if s.isEmpty then none else some (isoparse s)
  if block.action = "block" then
    [BlockLogItem.blockEv { user_name := user_name, timestamp := timestamp, expiry := expiry }]
  else if block.action = "reblock" then
    [BlockLogItem.blockEv
      { user_name := user_name, timestamp := timestamp, expiry := expiry, reblock := true }]
  else if block.action = "unblock" then
    [BlockLogItem.unblockEv { user_name := user_name, timestamp := timestamp }]
  else []

/-! ## Theorems -/

/-- Each loop iteration of `get_user_blocks` appends exactly the events that
claim C1 assigns to the entry: the three `if` tests compare the action
against pairwise distinct strings, so at most one of them fires. -/
theorem get_user_blocks_step_eq (user_name : String) (events : List BlockLogItem)
    (block : LogEntry) :
    get_user_blocks_step user_name events block =
      events ++ claimed_block_events user_name block := by
  unfold get_user_blocks_step claimed_block_events
  by_cases h1 : block.action = "block"
  · simp [h1]
  · by_cases h2 : block.action = "reblock"
    · simp [h1, h2]
    · by_cases h3 : block.action = "unblock"
      · simp [h1, h2, h3]
      · simp [h1, h2, h3]

/-- Accumulating with `get_user_blocks_step` from any prefix is the prefix
followed by the per-entry translations, in entry order. -/
theorem get_user_blocks_foldl (user_name : String) (blocks : List LogEntry)
    (events : List BlockLogItem) :
    blocks.foldl (get_user_blocks_step user_name) events =
      events ++ blocks.flatMap (claimed_block_events user_name) := by
  induction blocks generalizing events with
  | nil => simp
  | cons b bs ih =>
    simp [List.foldl_cons, get_user_blocks_step_eq, ih, List.flatMap_cons,
      List.append_assoc]

/-- Claim C1: for every sequence of block-log entries returned by the API
client for a user, `get_user_blocks` returns, in entry order, a
`BlockEvent(user_name, timestamp, expiry)` for each entry with action
`block`, the same with `reblock=True` for action `reblock`, an
`UnblockEvent(user_name, timestamp)` for action `unblock`, and no event for
any other action. -/
theorem get_user_blocks_spec (w : Wiki) (user_name : String) :
    (w.get_user_blocks user_name).1 =
      (w.site.data.logevents ("User:" ++ user_name)).flatMap
        (claimed_block_events user_name) := by
  simp [Wiki.get_user_blocks, get_user_blocks_foldl]

/-- Claim C2: `user_contributions` yields exactly one `WikiContrib` per
contribution record, in record order, whose timestamp is the struct_time
converted to a datetime and whose title and comment are the records title
and comment unchanged. -/
theorem user_contributions_spec (w : Wiki) (user_name : String) :
    ((w.user_contributions user_name).1).length =
        (w.site.data.usercontributions user_name).length
    ∧ ∀ i : Nat, ((w.user_contributions user_name).1)[i]? =
        ((w.site.data.usercontributions user_name)[i]?).map (fun contrib =>
          { timestamp := struct_to_datetime contrib.timestamp,
            title := contrib.title,
            comment := contrib.comment,
            is_live := true }) := by
  refine ⟨by simp [Wiki.user_contributions], fun i => ?_⟩
  simp [Wiki.user_contributions, List.getElem?_map]

/-- Claim C3: `get_case_ips` builds an `SpiCase` from the case pages source
document, together with the archive subpages document exactly when the
archive text is non-empty, and returns that cases `find_all_ips()`. -/
theorem get_case_ips_spec (libs : Libs) (w : Wiki) (case_name : String) :
    (Wiki.get_case_ips libs w case_name).1 =
      libs.find_all_ips { docs :=
        [{ title := "Wikipedia:Sockpuppet investigations/" ++ case_name,
           text := w.site.data.pages_text
             ("Wikipedia:Sockpuppet investigations/" ++ case_name) }] ++
        (if (w.site.data.pages_text
              (("Wikipedia:Sockpuppet investigations/" ++ case_name) ++ "/Archive")).isEmpty
         then []
         else
          [{ title := ("Wikipedia:Sockpuppet investigations/" ++ case_name) ++ "/Archive",
             text := w.site.data.pages_text
               (("Wikipedia:Sockpuppet investigations/" ++ case_name) ++ "/Archive") }]) } := by
  unfold Wiki.get_case_ips
  split <;> simp_all

/-! ### Concrete sample data used by witnesses -/

/-- A concrete settings value. -/
def sample_settings : Settings :=
  { SOCIAL_AUTH_MEDIAWIKI_KEY := "k",
    SOCIAL_AUTH_MEDIAWIKI_SECRET := "s",
    MEDIAWIKI_SITE_NAME := "en.wikipedia.org",
    MEDIAWIKI_USER_AGENT := "spi-tools" }

/-- A concrete remote wiki with one live contribution per user. -/
def sample_data : SiteData :=
  { pages_text := fun _ => "",
    pages_exist := fun _ => false,
    usercontributions := fun _ =>
      [{ timestamp := { tm_year := 2020, tm_mon := 1, tm_mday := 2,
                        tm_hour := 3, tm_min := 4, tm_sec := 5 },
         title := "T", comment := "c" }],
    logevents := fun _ => [],
    users := fun _ => [],
    alldeletedrevisions := fun _ => [] }

/-- A concrete wiki built from `sample_data` with no request. -/
def sample_wiki : Wiki :=
  Wiki.init sample_settings none sample_data

/-- A concrete request with a logged-in (non-anonymous) user. -/
def sample_request : Request :=
  { user := { is_anonymous := false,
              access_token := { oauth_token := "at", oauth_token_secret := "as" } } }

/-- A concrete remote wiki whose users listing has one record with a
`registration` key holding a null value. -/
def regnull_data : SiteData :=
  { pages_text := fun _ => "",
    pages_exist := fun _ => false,
    usercontributions := fun _ => [],
    logevents := fun _ => [],
    users := fun _ => [{ registration := some none }],
    alldeletedrevisions := fun _ => [] }

/-- A concrete wiki built from `regnull_data` with no request. -/
def regnull_wiki : Wiki :=
  Wiki.init sample_settings none regnull_data

/-! ### Remaining claim theorems -/

/-- Claim C4: `deleted_user_contributions` processes the whole
`alldeletedrevisions` listing, and for a single revision record the
processing raises `ValueError` exactly when the timestamp string does not
end with `Z`; otherwise it yields a `WikiContrib` with the ISO string parsed
as a UTC datetime, the pages title, the revisions comment, and
`is_live=False`. -/
theorem deleted_user_contributions_spec (w : Wiki) (user_name title : String)
    (revision : DeletedRevision) :
    (w.deleted_user_contributions user_name).1 =
      process_deleted_pages (w.site.data.alldeletedrevisions user_name)
    ∧ ((∃ msg, process_deleted_revision title revision = Except.error msg) ↔
        py_endswith revision.timestamp "Z" = false)
    ∧ (py_endswith revision.timestamp "Z" = true →
        process_deleted_revision title revision = Except.ok
          { timestamp := fromisoformat (revision.timestamp.dropRight 1 ++ "+00:00"),
            title := title,
            comment := revision.comment,
            is_live := false }) := by
  refine ⟨rfl, ?_, fun hz => by unfold process_deleted_revision; simp [hz]⟩
  unfold process_deleted_revision
  cases hz : py_endswith revision.timestamp "Z" <;> simp [hz]

/-- Witness for claim C4 at a concrete revision whose timestamp ends in
`Z`. -/
theorem deleted_user_contributions_witness :
    (sample_wiki.deleted_user_contributions "U").1 =
      process_deleted_pages (sample_wiki.site.data.alldeletedrevisions "U")
    ∧ process_deleted_revision "T" { timestamp := "Z", comment := "c" } = Except.ok
        { timestamp := fromisoformat ("Z".dropRight 1 ++ "+00:00"),
          title := "T", comment := "c", is_live := false } :=
  ⟨(deleted_user_contributions_spec sample_wiki "U" "T" { timestamp := "Z", comment := "c" }).1,
   (deleted_user_contributions_spec sample_wiki "U" "T"
      { timestamp := "Z", comment := "c" }).2.2 (by decide)⟩

/-- Claim C5: `get_mw_site` passes OAuth credentials (consumer token and
secret from the settings, access token and secret from the social-auth
record) exactly when the request is present and its user is not anonymous;
otherwise the client is built with no credentials. -/
theorem get_mw_site_spec (s : Settings) (r : Option Request) (d : SiteData) :
    ((get_mw_site s r d).auth_info ≠ none ↔
      ∃ req, r = some req ∧ req.user.is_anonymous = false)
    ∧ (∀ req : Request, r = some req → req.user.is_anonymous = false →
        (get_mw_site s r d).auth_info = some
          { consumer_token := s.SOCIAL_AUTH_MEDIAWIKI_KEY,
            consumer_secret := s.SOCIAL_AUTH_MEDIAWIKI_SECRET,
            access_token := req.user.access_token.oauth_token,
            access_secret := req.user.access_token.oauth_token_secret })
    ∧ (r = none → (get_mw_site s r d).auth_info = none) := by
  unfold get_mw_site
  cases r with
  | none => simp
  | some req =>
    cases hA : req.user.is_anonymous with
    | false => simp [hA]
    | true => simp [hA]

/-- Witness for claim C5 at a concrete logged-in request. -/
theorem get_mw_site_witness :
    (get_mw_site sample_settings (some sample_request) sample_data).auth_info = some
      { consumer_token := sample_settings.SOCIAL_AUTH_MEDIAWIKI_KEY,
        consumer_secret := sample_settings.SOCIAL_AUTH_MEDIAWIKI_SECRET,
        access_token := sample_request.user.access_token.oauth_token,
        access_secret := sample_request.user.access_token.oauth_token_secret } :=
  (get_mw_site_spec sample_settings (some sample_request) sample_data).2.1
    sample_request rfl rfl

/-- Claim C6: `get_current_case_names` returns, in document order, the
rendering of the parameter 1 of each template of the overview page whose
name matches `SPIstatusentry`, and nothing else. -/
theorem get_current_case_names_spec (libs : Libs) (w : Wiki) :
    ((Wiki.get_current_case_names libs w).1).length =
      ((libs.parse (w.site.data.pages_text
          "Wikipedia:Sockpuppet investigations/Cases/Overview")).filter
        (fun t => libs.name_matches t.name "SPIstatusentry")).length
    ∧ ∀ i : Nat, ((Wiki.get_current_case_names libs w).1)[i]? =
        (((libs.parse (w.site.data.pages_text
            "Wikipedia:Sockpuppet investigations/Cases/Overview")).filter
          (fun t => libs.name_matches t.name "SPIstatusentry"))[i]?).map
          Template.param1 := by
  refine ⟨by simp [Wiki.get_current_case_names], fun i => ?_⟩
  simp [Wiki.get_current_case_names, List.getElem?_map]

/-- Claim C7: constructing a `Wiki` stores the one `Site` built by
`get_mw_site` in the `site` field, and every operation leaves the `site`
field unchanged. -/
theorem wiki_site_invariant (s : Settings) (r : Option Request) (d : SiteData)
    (libs : Libs) (w : Wiki) (title case_name master_name user u1 u2 u3 : String)
    (use_archive : Bool) :
    (Wiki.init s r d).site = get_mw_site s r d
    ∧ (Wiki.get_current_case_names libs w).2.site = w.site
    ∧ (w.page_exists title).2.site = w.site
    ∧ (Wiki.get_case_ips libs w case_name).2.site = w.site
    ∧ (w.get_registration_time user).2.site = w.site
    ∧ (w.get_case master_name use_archive).2.site = w.site
    ∧ (w.user_contributions u1).2.site = w.site
    ∧ (w.deleted_user_contributions u2).2.site = w.site
    ∧ (w.get_user_blocks u3).2.site = w.site := by
  refine ⟨rfl, rfl, rfl, rfl, ?_, ?_, rfl, rfl, rfl⟩
  · unfold Wiki.get_registration_time
    split
    · rfl
    · split <;> rfl
  · unfold Wiki.get_case
    split <;> rfl

/-- Claim C8: with `use_archive` false, `get_case` builds the `SpiCase` from
the current case document only and never fetches the archive page; with
`use_archive` true it additionally includes the archive document exactly
when the archive text is non-empty. -/
theorem get_case_spec (w : Wiki) (master_name : String) :
    ((w.get_case master_name false).1.1 =
        { docs := [{ title := "Wikipedia:Sockpuppet investigations/" ++ master_name,
                     text := w.site.data.pages_text
                       ("Wikipedia:Sockpuppet investigations/" ++ master_name) }] }
      ∧ (w.get_case master_name false).1.2 =
          ["Wikipedia:Sockpuppet investigations/" ++ master_name]
      ∧ (("Wikipedia:Sockpuppet investigations/" ++ master_name) ++ "/Archive") ∉
          (w.get_case master_name false).1.2)
    ∧ (w.get_case master_name true).1.1 =
        { docs :=
          [{ title := "Wikipedia:Sockpuppet investigations/" ++ master_name,
             text := w.site.data.pages_text
               ("Wikipedia:Sockpuppet investigations/" ++ master_name) }] ++
          (if (w.site.data.pages_text
                (("Wikipedia:Sockpuppet investigations/" ++ master_name) ++ "/Archive")).isEmpty
           then []
           else
            [{ title := ("Wikipedia:Sockpuppet investigations/" ++ master_name) ++ "/Archive",
               text := w.site.data.pages_text
                 (("Wikipedia:Sockpuppet investigations/" ++ master_name) ++ "/Archive") }]) } := by
  refine ⟨⟨rfl, rfl, ?_⟩, ?_⟩
  · intro hmem
    have h2 : (w.get_case master_name false).1.2 =
        ["Wikipedia:Sockpuppet investigations/" ++ master_name] := rfl
    rw [h2, List.mem_singleton] at hmem
    have hlen := congrArg String.length hmem
    rw [String.length_append] at hlen
    have h8 : ("/Archive" : String).length = 8 := rfl
    rw [h8] at hlen
    omega
  · unfold Wiki.get_case
    by_cases hA : (w.site.data.pages_text
        (("Wikipedia:Sockpuppet investigations/" ++ master_name) ++ "/Archive")).isEmpty <;>
      simp [hA]

/-- Claim C9 as stated is false at a concrete input: the first record of the
users listing of `regnull_wiki` carries a `registration` key (holding a null
value), yet `get_registration_time` returns `None`, so returning `None` is
not equivalent to the key being absent. -/
theorem get_registration_time_counterexample :
    (regnull_wiki.site.data.users "Alice" = [{ registration := some none }])
    ∧ ¬ (((regnull_wiki.get_registration_time "Alice").1 = Except.ok none) ↔
          ({ registration := some none : UserInfo }).registration = none) := by
  refine ⟨rfl, fun hiff => ?_⟩
  have h1 : (regnull_wiki.get_registration_time "Alice").1 = Except.ok none := rfl
  have h2 := hiff.mp h1
  simp at h2

/-- Claim C9 amended: `get_registration_time` returns the value stored under
the `registration` key of the first record yielded by the users query, and
returns `None` exactly when that record has no `registration` key or the
stored value is itself null. -/
theorem get_registration_time_spec (w : Wiki) (user : String) (ui : UserInfo)
    (rest : List UserInfo) (h : w.site.data.users user = ui :: rest) :
    (w.get_registration_time user).1 =
      Except.ok (match ui.registration with | some v => v | none => none)
    ∧ ((w.get_registration_time user).1 = Except.ok none ↔
        (ui.registration = none ∨ ui.registration = some none)) := by
  unfold Wiki.get_registration_time
  rw [h]
  cases hr : ui.registration with
  | none => simp [hr]
  | some v => cases v <;> simp [hr]

/-- Witness for the amended claim C9 at the concrete wiki whose first user
record holds a null registration value. -/
theorem get_registration_time_witness :
    (regnull_wiki.get_registration_time "Alice").1 = Except.ok none :=
  ((get_registration_time_spec regnull_wiki "Alice" { registration := some none }
    [] rfl).2).mpr (Or.inr rfl)

/-- Every `WikiContrib` built by the yield of `deleted_user_contributions`
has `is_live = false`. -/
theorem process_deleted_revision_not_live (title : String)
    (revision : DeletedRevision) (contrib : WikiContrib)
    (h : process_deleted_revision title revision = Except.ok contrib) :
    contrib.is_live = false := by
  simp only [process_deleted_revision] at h
  split at h
  · simp only [Except.ok.injEq] at h
    subst h
    rfl
  · simp at h

/-- All contributions produced for the revisions of one page are
non-live. -/
theorem process_deleted_revisions_not_live (title : String)
    (revisions : List DeletedRevision) (contribs : List WikiContrib)
    (h : process_deleted_revisions title revisions = Except.ok contribs) :
    contribs.all (fun c => !c.is_live) = true := by
  induction revisions generalizing contribs with
  | nil =>
    unfold process_deleted_revisions at h
    simp only [Except.ok.injEq] at h
    subst h
    rfl
  | cons revision rest ih =>
    unfold process_deleted_revisions at h
    cases hc : process_deleted_revision title revision with
    | error e => rw [hc] at h; exact absurd h (by simp)
    | ok contrib =>
      rw [hc] at h
      cases hcs : process_deleted_revisions title rest with
      | error e => rw [hcs] at h; exact absurd h (by simp)
      | ok contribs2 =>
        rw [hcs] at h
        simp only [Except.ok.injEq] at h
        subst h
        simp [List.all_cons, process_deleted_revision_not_live title revision contrib hc,
          ih contribs2 hcs]

/-- All contributions produced across the pages of the listing are
non-live. -/
theorem process_deleted_pages_not_live (pages : List DeletedPage)
    (contribs : List WikiContrib)
    (h : process_deleted_pages pages = Except.ok contribs) :
    contribs.all (fun c => !c.is_live) = true := by
  induction pages generalizing contribs with
  | nil =>
    unfold process_deleted_pages at h
    simp only [Except.ok.injEq] at h
    subst h
    rfl
  | cons page rest ih =>
    unfold process_deleted_pages at h
    cases hc : process_deleted_revisions page.title page.revisions with
    | error e => rw [hc] at h; exact absurd h (by simp)
    | ok contribs1 =>
      rw [hc] at h
      cases hcs : process_deleted_pages rest with
      | error e => rw [hcs] at h; exact absurd h (by simp)
      | ok contribs2 =>
        rw [hcs] at h
        simp only [Except.ok.injEq] at h
        subst h
        rw [List.all_append]
        simp [process_deleted_revisions_not_live page.title page.revisions contribs1 hc,
          ih contribs2 hcs]

/-- Claim C10: every `WikiContrib` yielded by `user_contributions` has
`is_live = True`, and every `WikiContrib` yielded by
`deleted_user_contributions` (both per revision and across the whole
listing) has `is_live = False`. -/
theorem is_live_spec (w : Wiki) (u : String) :
    ((w.user_contributions u).1).all (fun c => c.is_live) = true
    ∧ (∀ title revision contrib,
        process_deleted_revision title revision = Except.ok contrib →
        contrib.is_live = false)
    ∧ (∀ contribs, (w.deleted_user_contributions u).1 = Except.ok contribs →
        contribs.all (fun c => !c.is_live) = true) := by
  refine ⟨?_, process_deleted_revision_not_live, fun contribs h => ?_⟩
  · unfold Wiki.user_contributions
    simp [List.all_map]
  · exact process_deleted_pages_not_live (w.site.data.alldeletedrevisions u) contribs h

/-- Witness for claim C10 at a concrete wiki with one live contribution and
a concrete deleted revision. -/
theorem is_live_witness :
    ((sample_wiki.user_contributions "Alice").1).all (fun c => c.is_live) = true
    ∧ ({ timestamp := fromisoformat ("Z".dropRight 1 ++ "+00:00"),
         title := "T", comment := "c", is_live := false : WikiContrib }).is_live = false :=
  ⟨(is_live_spec sample_wiki "Alice").1,
   (is_live_spec sample_wiki "Alice").2.1 "T" { timestamp := "Z", comment := "c" }
     { timestamp := fromisoformat ("Z".dropRight 1 ++ "+00:00"),
       title := "T", comment := "c", is_live := false }
     (by simp [process_deleted_revision, show py_endswith "Z" "Z" = true from by decide])⟩

end SpiTools
